import Mathlib

/-!
Shallow embedding of `src/app.py` (a Flask product-traceability app) and
proofs about its core pipeline: trace-identifier generation, admin
ingestion, QR-path encoding, and the public lookup/logging flow.

Machine-level conventions of the embedding:
* Python `str` is Lean `String`; a form value that may be missing
  (`request.form.get`) is `Option String`.
* `datetime.utcnow()` / `datetime.now()` timestamps are abstract clock
  readings modelled as `Nat`; each handler receives the clock values the
  Python runtime would sample, in order.
* The SQLite database is a pair of lists (insertion order = rowid order).
* Exceptions are modelled with `Except` / an explicit error outcome.
-/

namespace App

/-- One row of the `ProductTrace` table (`src/app.py` lines 19-40).
`nullable=False` columns other than the key are kept as `Option` at the
Lean level because the handler passes `request.form.get` results through
unchecked; the NOT NULL constraint is enforced at commit time by
`insertError` below.  `created_at`/`updated_at` are the clock readings taken
by the column defaults. -/
structure ProductTrace where
  trace_id : String
  product_name : Option String
  model : Option String
  material : Option String
  material_origin : Option String
  material_batch : Option String
  standard_code : Option String
  function_desc : Option String
  key_params : Option String
  prod_batch : Option String
  prod_date : Option String
  prod_line : Option String
  qc_result : Option String
  qc_person : Option String
  warranty_months : Int
  qr_image_path : Option String
  created_at : Nat
  updated_at : Nat
  deriving DecidableEq, Repr

/-- One row of the `ScanLog` table (`src/app.py` lines 43-49).
`ip_address` is `request.remote_addr` (may be `None`); `user_agent` is
`request.headers.get("User-Agent", "")` (defaulted, never `None`). -/
structure ScanLog where
  trace_id : String
  ip_address : Option String
  user_agent : String
  scanned_at : Nat
  deriving DecidableEq, Repr

/-- The persistent state: both tables of `trace.db`, rows in insertion
order. -/
structure DB where
  products : List ProductTrace
  scan_logs : List ScanLog
  deriving DecidableEq, Repr

/-- Error taxonomy of the embedded handlers: `valueError` is Python's
`ValueError` from `int(...)`, `duplicateKey`/`notNull` are the
IntegrityError cases of the first commit, `encodingError` is a failure
inside `generate_qr`, `storageError` a failed log commit, `notFound` is
`abort(404)`. -/
inductive AppError where
  | valueError
  | duplicateKey
  | notNull
  | encodingError
  | storageError
  | notFound
  deriving DecidableEq, Repr

/-! ## Identifier generator (`generate_trace_id`, lines 58-66)

    date_str = datetime.now().strftime("%Y%m%d")
    rand = uuid.uuid4().hex[:6].upper()
    return f"P{date_str}{rand}"

The clock is passed in as a year/month/day triple and the random source
as the 32 lowercase-hex characters of `uuid4().hex`.  `strftime` fields
`%m`/`%d` are zero-padded to width 2 and `%Y` prints a current-era year
(1000-9999) as its 4 decimal digits, which is what `pad2`/`pad4`
compute. -/

/-- The decimal digit character of `n % 10`. -/
def digitChar (n : Nat) : Char := Nat.digitChar (n % 10)

/-- The `strftime` zero-padded width-2 decimal field (`%m`, `%d`). -/
def pad2 (n : Nat) : List Char := [digitChar (n / 10), digitChar n]

/-- The `strftime` `%Y` field for a four-digit year: its 4 decimal digits. -/
def pad4 (n : Nat) : List Char :=
  [digitChar (n / 1000), digitChar (n / 100), digitChar (n / 10), digitChar n]

/-- Embeds `datetime.now().strftime("%Y%m%d")`. -/
def dateStr (y m d : Nat) : String := String.mk (pad4 y ++ pad2 m ++ pad2 d)

/-- Embeds `generate_trace_id` (lines 58-66): `"P" + date + uuid4().hex[:6].upper()`.
`uuidHex` stands for the 32 lowercase-hex characters of `uuid4().hex`. -/
def generate_trace_id (y m d : Nat) (uuidHex : List Char) : String :=
  "P" ++ dateStr y m d ++ String.mk ((uuidHex.take 6).map Char.toUpper)

/-- The 16 characters `uuid4().hex` draws from. -/
def hexLowerChars : List Char := "0123456789abcdef".data

/-- The 16 characters obtained after `.upper()`. -/
def hexUpperChars : List Char := "0123456789ABCDEF".data

/-- An uppercase alphanumeric character (digit or capital letter). -/
def isUpperAlnum (c : Char) : Bool := c.isDigit || (c.isAlpha && c.isUpper)

/-- The spec's identifier pattern: `P` + 8 digits + 6 uppercase
alphanumerics (and nothing after). -/
def matchesTracePattern (s : String) : Bool :=
  s.data.length = 15 &&
  s.data.take 1 = ['P'] &&
  ((s.data.drop 1).take 8).all Char.isDigit &&
  ((s.data.drop 9).all isUpperAlnum)

/-! ## Code-image encoder (`generate_qr`, lines 69-85)

    base_url = "https://zj-1008.github.io/trace-system/trace_page.html?trace_id="
    url = base_url + trace_id
    save_dir = os.path.join("static", "qrcodes")
    os.makedirs(save_dir, exist_ok=True)
    file_path = os.path.join(save_dir, f"{trace_id}.png")
    img = qrcode.make(url)
    img.save(file_path)
    return file_path

The filesystem is a list of `(path, encoded url)` pairs; `qrcode.make`
is abstracted to the URL it encodes (only the path matters to the spec:
byte-for-byte image output is explicitly not guaranteed). -/

/-- Filesystem state: files written so far, as `(path, encoded url)`. -/
structure FS where
  files : List (String × String)
  deriving DecidableEq, Repr

/-- The hard-coded lookup URL built at line 74-75. -/
def lookup_url (trace_id : String) : String :=
  "https://zj-1008.github.io/trace-system/trace_page.html?trace_id=" ++ trace_id

/-- Embeds `generate_qr` (lines 69-85): writes the image file and returns the
relative path `os.path.join("static", "qrcodes", f"{trace_id}.png")`. -/
def generate_qr (trace_id : String) (fs : FS) : FS × String :=
  let url := lookup_url trace_id
  let file_path := "static/qrcodes/" ++ trace_id ++ ".png"
  (⟨fs.files ++ [(file_path, url)]⟩, file_path)

/-! ## Python `int(str)` (line 123)

`int(request.form.get("warranty_months") or 0)`.  Python's `int` on a
string strips surrounding whitespace, accepts an optional sign, then a
nonempty digit sequence in which single underscores may separate digits;
anything else raises `ValueError`. -/

/-- Value of a Python base-10 digit sequence with optional single
underscores between digits; `none` on any violation.  `acc` holds the
value of the digits consumed so far. -/
def pyDigitsGo : List Char → Nat → Option Nat
  | [], acc => some acc
  | '_' :: c :: rest, acc =>
      if c.isDigit then pyDigitsGo rest (acc * 10 + (c.toNat - 48)) else none
  | ['_'], _ => none
  | c :: rest, acc =>
      if c.isDigit then pyDigitsGo rest (acc * 10 + (c.toNat - 48)) else none

/-- A Python `digitpart`: `digit (["_"] digit)*`. -/
def pyDigitPart : List Char → Option Nat
  | [] => none
  | c :: rest => if c.isDigit then pyDigitsGo rest (c.toNat - 48) else none

/-- Python `int(s)` for a base-10 string: `some n` on success, `none`
when `ValueError` would be raised. -/
def pyInt (s : String) : Option Int :=
  let cs := ((s.data.dropWhile Char.isWhitespace).reverse.dropWhile
      Char.isWhitespace).reverse
  match cs with
  | '+' :: rest => (pyDigitPart rest).map Int.ofNat
  | '-' :: rest => (pyDigitPart rest).map (fun n => -(Int.ofNat n))
  | rest => (pyDigitPart rest).map Int.ofNat

/-- Embeds `int(request.form.get("warranty_months") or 0)` (line 123): a missing
field or empty string is falsy, so `or` substitutes `0`; otherwise the
string is handed to `int`, which may raise (`none`). -/
def warrantyFromForm : Option String → Option Int
  | none => some 0
  | some s => if s = "" then some 0 else pyInt s

/-! ## Admin ingestion (`admin_new_product`, POST branch, lines 103-135) -/

/-- The raw form of `POST /admin/products/new`: each field is
`request.form.get(name)`. -/
structure Form where
  product_name : Option String
  model : Option String
  material : Option String
  material_origin : Option String
  material_batch : Option String
  standard_code : Option String
  function_desc : Option String
  key_params : Option String
  prod_batch : Option String
  prod_date : Option String
  prod_line : Option String
  qc_result : Option String
  qc_person : Option String
  warranty_months : Option String
  deriving DecidableEq, Repr

/-- The first `db.session.commit()` (line 128) succeeds iff the new row
satisfies the table constraints: `trace_id` unique (line 22) and
`product_name` NOT NULL (line 23). -/
def insertError (db : DB) (p : ProductTrace) : Option AppError :=
  if db.products.any (fun q => q.trace_id = p.trace_id) then some .duplicateKey
  else if p.product_name = none then some .notNull
  else none

/-- The `ProductTrace(...)` constructor call of lines 108-124, after the
`warranty_months` coercion has produced `wm`: every other field is the
raw form value, `qr_image_path` is unset, and both timestamps take the
clock reading `now` of the column defaults. -/
def mkProduct (form : Form) (gen_id : String) (wm : Int) (now : Nat) :
    ProductTrace :=
  { trace_id := gen_id
    product_name := form.product_name
    model := form.model
    material := form.material
    material_origin := form.material_origin
    material_batch := form.material_batch
    standard_code := form.standard_code
    function_desc := form.function_desc
    key_params := form.key_params
    prod_batch := form.prod_batch
    prod_date := form.prod_date
    prod_line := form.prod_line
    qc_result := form.qc_result
    qc_person := form.qc_person
    warranty_months := wm
    qr_image_path := none
    created_at := now
    updated_at := now }

/-- Embeds `admin_new_product`, POST branch (lines 103-135).  Inputs beyond the
form and the prior state are the environment the handler samples:
`gen_id` is the single value `generate_trace_id()` returns at line 105,
`now` the clock reading of the column defaults at the first commit,
`now2` the `onupdate` reading at the second commit, and `encode_ok`
whether `generate_qr` succeeds (False = it raises, e.g. the image cannot
be written).  Returns the state after the handler finishes or the
exception escapes, with the outcome (`.ok` carries the redirect's
destination identifier). -/
def admin_new_product (form : Form) (gen_id : String) (now now2 : Nat)
    (encode_ok : Bool) (db : DB) (fs : FS) :
    DB × FS × Except AppError String :=
  -- 1. generate the trace id (line 105); 2. build the row (lines 108-124):
  -- `int(...)` at line 123 runs while the constructor arguments are
  -- evaluated, so a ValueError escapes before anything is added.
  match warrantyFromForm form.warranty_months with
  | none => (db, fs, .error .valueError)
  | some wm =>
    let product := mkProduct form gen_id wm now
    -- 3. add + commit (lines 127-128): constraint failure rolls back.
    match insertError db product with
    | some e => (db, fs, .error e)
    | none =>
      let db1 : DB := ⟨db.products ++ [product], db.scan_logs⟩
      -- 4. generate_qr + second commit (lines 131-133): if the encoder
      -- raises, the exception escapes with the row already committed.
      if encode_ok then
        let r := generate_qr gen_id fs
        let upd : ProductTrace :=
          { product with qr_image_path := some r.2, updated_at := now2 }
        (⟨db.products ++ [upd], db.scan_logs⟩, r.1, .ok gen_id)
      else
        (db1, fs, .error .encodingError)

/-! ## Public lookup (`trace_page`, lines 142-160) -/

/-- Embeds `trace_page` (lines 142-160): look up the record
(`filter_by(trace_id=...).first()`), `abort(404)` on a miss, otherwise
append one `ScanLog` row and commit.  `log_ok` is whether that commit
succeeds (False = the store raises; the handler has no try/except, so
the exception escapes).  `.ok` carries the record the template renders. -/
def trace_page (tid : String) (ip : Option String) (ua : String) (now : Nat)
    (log_ok : Bool) (db : DB) : DB × Except AppError ProductTrace :=
  match db.products.find? (fun p => p.trace_id = tid) with
  | none => (db, .error .notFound)
  | some product =>
    if log_ok then
      let log : ScanLog :=
        { trace_id := tid, ip_address := ip, user_agent := ua, scanned_at := now }
      (⟨db.products, db.scan_logs ++ [log]⟩, .ok product)
    else
      (db, .error .storageError)

/-! ## Concrete sample data for evaluations -/

/-- A record as the admin flow would have committed it: trace id of the
generated shape, image already rendered. -/
def sampleProduct : ProductTrace :=
  { trace_id := "P20250101ABCDEF"
    product_name := some "Widget"
    model := none
    material := none
    material_origin := none
    material_batch := none
    standard_code := none
    function_desc := none
    key_params := none
    prod_batch := none
    prod_date := none
    prod_line := none
    qc_result := none
    qc_person := none
    warranty_months := 3
    qr_image_path := some "static/qrcodes/P20250101ABCDEF.png"
    created_at := 1
    updated_at := 1 }

/-- A store holding exactly `sampleProduct` and no scan logs. -/
def sampleDB : DB := ⟨[sampleProduct], []⟩

/-- A well-formed submission: product name given, warranty field blank. -/
def sampleForm : Form :=
  { product_name := some "Widget"
    model := none
    material := none
    material_origin := none
    material_batch := none
    standard_code := none
    function_desc := none
    key_params := none
    prod_batch := none
    prod_date := none
    prod_line := none
    qc_result := none
    qc_person := none
    warranty_months := some "" }

/-- The same submission with a warranty value `int` cannot parse. -/
def badWarrantyForm : Form := { sampleForm with warranty_months := some "abc" }

/-! ## Character-level lemmas -/

lemma digitChar_isDigit (n : Nat) : (digitChar n).isDigit = true := by
  unfold digitChar
  have h : n % 10 < 10 := Nat.mod_lt _ (by omega)
  set k := n % 10 with hk
  interval_cases k <;> decide

lemma toUpper_mem_hexUpper {c : Char} (h : c ∈ hexLowerChars) :
    Char.toUpper c ∈ hexUpperChars := by
  have hall : ∀ x ∈ hexLowerChars, Char.toUpper x ∈ hexUpperChars := by decide
  exact hall c h

lemma isUpperAlnum_of_mem_hexUpper {c : Char} (h : c ∈ hexUpperChars) :
    isUpperAlnum c = true := by
  have hall : ∀ x ∈ hexUpperChars, isUpperAlnum x = true := by decide
  exact hall c h

/-- The character list underlying a generated identifier. -/
lemma generate_trace_id_data (y m d : Nat) (hex : List Char) :
    (generate_trace_id y m d hex).data
      = 'P' :: ((pad4 y ++ pad2 m ++ pad2 d) ++ (hex.take 6).map Char.toUpper) := by
  simp [generate_trace_id, dateStr, String.data_append]

/-- A concrete stand-in for `uuid.uuid4().hex` (32 lowercase hex chars). -/
def sampleHex : List Char := "a1b2c3d4e5f60718293a4b5c6d7e8f90".data

/-- C6: every identifier returned by `generate_trace_id` matches the
pattern `P` + 8 digits (the current date as `YYYYMMDD`) + 6 uppercase
alphanumeric characters.  The hypotheses say the clock reads a
current-era date (4-digit year) and that the random source is
`uuid4().hex`: 32 characters drawn from `0-9a-f`. -/
theorem generate_trace_id_matches_pattern (y m d : Nat) (hex : List Char)
    (hy1 : 1000 ≤ y) (hy2 : y ≤ 9999) (hlen : hex.length = 32)
    (hhex : ∀ c ∈ hex, c ∈ hexLowerChars) :
    matchesTracePattern (generate_trace_id y m d hex) = true := by
  have hall : ∀ c ∈ (hex.take 6).map Char.toUpper, isUpperAlnum c = true := by
    intro c hc
    rcases List.mem_map.mp hc with ⟨a, ha, rfl⟩
    exact isUpperAlnum_of_mem_hexUpper
      (toUpper_mem_hexUpper (hhex a (List.take_subset 6 hex ha)))
  have hlen6 : ((hex.take 6).map Char.toUpper).length = 6 := by
    simp [List.length_take, hlen]
  unfold matchesTracePattern
  rw [generate_trace_id_data]
  simp only [pad4, pad2, List.cons_append, List.nil_append, List.length_cons,
    List.take_cons, List.drop_succ_cons, List.all_cons, List.take_nil,
    List.drop_nil, List.take_zero, List.drop_zero]
  simp [hlen6, digitChar_isDigit, List.all_eq_true, hall]
  constructor
  · omega
  · intro x hx
    rw [← List.map_take] at hx
    exact hall x hx

/-- C6 witness: a concrete generated identifier matches the pattern. -/
theorem generate_trace_id_matches_pattern_witness :
    matchesTracePattern (generate_trace_id 2025 1 26 sampleHex) = true :=
  generate_trace_id_matches_pattern 2025 1 26 sampleHex (by norm_num)
    (by norm_num) (by decide) (by decide)

/-- C9: a generated identifier has length exactly 15, and its trailing 6
random characters come from the 16-character uppercase-hex alphabet
`0-9A-F` (a strict subset of the uppercase alphanumerics the spec
allows), because `uuid4().hex[:6].upper()` only produces those. -/
theorem generate_trace_id_length_and_hex (y m d : Nat) (hex : List Char)
    (hy1 : 1000 ≤ y) (hy2 : y ≤ 9999) (hlen : hex.length = 32)
    (hhex : ∀ c ∈ hex, c ∈ hexLowerChars) :
    (generate_trace_id y m d hex).data.length = 15 ∧
      ∀ c ∈ (generate_trace_id y m d hex).data.drop 9, c ∈ hexUpperChars := by
  have hlen6 : ((hex.take 6).map Char.toUpper).length = 6 := by
    simp [List.length_take, hlen]
  rw [generate_trace_id_data]
  constructor
  · simp only [pad4, pad2, List.cons_append, List.nil_append, List.length_cons]
    rw [hlen6]
  · intro c hc
    simp only [pad4, pad2, List.cons_append, List.nil_append,
      List.drop_succ_cons, List.drop_zero] at hc
    rcases List.mem_map.mp hc with ⟨a, ha, rfl⟩
    exact toUpper_mem_hexUpper (hhex a (List.take_subset 6 hex ha))

/-- C9 witness: the concrete identifier has length 15 and uppercase-hex
tail. -/
theorem generate_trace_id_length_and_hex_witness :
    (generate_trace_id 2025 1 26 sampleHex).data.length = 15 ∧
      ∀ c ∈ (generate_trace_id 2025 1 26 sampleHex).data.drop 9,
        c ∈ hexUpperChars :=
  generate_trace_id_length_and_hex 2025 1 26 sampleHex (by norm_num)
    (by norm_num) (by decide) (by decide)

/-- C7: the code-image encoder is idempotent on path — encoding the same
identifier twice (in sequence, or from any two filesystem states) yields
the same path, and that path is the deterministic function
`static/qrcodes/<traceId>.png` of the identifier alone. -/
theorem generate_qr_idempotent_path (id : String) (fs1 fs2 : FS) :
    (generate_qr id ((generate_qr id fs1).1)).2 = (generate_qr id fs1).2 ∧
      (generate_qr id fs1).2 = (generate_qr id fs2).2 ∧
      (generate_qr id fs1).2 = "static/qrcodes/" ++ id ++ ".png" :=
  ⟨rfl, rfl, rfl⟩

/-- C4: a public lookup of an identifier that is not in the store leaves
the database untouched — no new ScanEvent — and aborts with 404,
whatever the logger would have done. -/
theorem trace_page_not_found (tid : String) (ip : Option String) (ua : String)
    (now : Nat) (log_ok : Bool) (db : DB)
    (h : ∀ p ∈ db.products, p.trace_id ≠ tid) :
    trace_page tid ip ua now log_ok db = (db, .error .notFound) := by
  have hfind : db.products.find? (fun p => p.trace_id = tid) = none := by
    rw [List.find?_eq_none]
    intro p hp
    simpa using h p hp
  simp [trace_page, hfind]

/-- C4 witness: looking up `P20250101AAAAAA` in a store that only holds
`P20250101ABCDEF` 404s and changes nothing. -/
theorem trace_page_not_found_witness :
    trace_page "P20250101AAAAAA" none "" 5 true sampleDB
      = (sampleDB, .error .notFound) :=
  trace_page_not_found "P20250101AAAAAA" none "" 5 true sampleDB (by decide)

/-- C5: a public lookup that finds a record appends exactly one new
ScanEvent, whose `trace_id` is the looked-up identifier and whose
`scanned_at` clock reading is after the record's `created_at` (the
lookup happens after the insertion, so the clock has advanced), and
responds 200 with the record.  `log_ok = true` is the normal case in
which the log commit succeeds. -/
theorem trace_page_found_logs_event (tid : String) (ip : Option String)
    (ua : String) (now : Nat) (db : DB) (p : ProductTrace)
    (hfind : db.products.find? (fun q => q.trace_id = tid) = some p)
    (hclock : p.created_at < now) :
    ∃ ev : ScanLog,
      (trace_page tid ip ua now true db).1.scan_logs = db.scan_logs ++ [ev] ∧
        ev.trace_id = tid ∧ p.created_at < ev.scanned_at ∧
        (trace_page tid ip ua now true db).2 = .ok p := by
  refine ⟨⟨tid, ip, ua, now⟩, ?_, rfl, hclock, ?_⟩ <;> simp [trace_page, hfind]

/-- C5 witness: a concrete successful lookup logs exactly one event. -/
theorem trace_page_found_logs_event_witness :
    ∃ ev : ScanLog,
      (trace_page "P20250101ABCDEF" (some "10.0.0.1") "curl" 5 true
            sampleDB).1.scan_logs = sampleDB.scan_logs ++ [ev] ∧
        ev.trace_id = "P20250101ABCDEF" ∧
        sampleProduct.created_at < ev.scanned_at ∧
        (trace_page "P20250101ABCDEF" (some "10.0.0.1") "curl" 5 true
            sampleDB).2 = .ok sampleProduct :=
  trace_page_found_logs_event "P20250101ABCDEF" (some "10.0.0.1") "curl" 5
    sampleDB sampleProduct (by decide) (by decide)

/-- C10: a public lookup never mutates or deletes what is already there:
the product table is returned unchanged and the scan-log table is either
unchanged or extended by exactly one appended event (all pre-existing
rows untouched), in every branch. -/
theorem trace_page_frame (tid : String) (ip : Option String) (ua : String)
    (now : Nat) (log_ok : Bool) (db : DB) :
    (trace_page tid ip ua now log_ok db).1.products = db.products ∧
      ((trace_page tid ip ua now log_ok db).1.scan_logs = db.scan_logs ∨
        ∃ ev, (trace_page tid ip ua now log_ok db).1.scan_logs
            = db.scan_logs ++ [ev]) := by
  unfold trace_page
  cases h : db.products.find? (fun p => p.trace_id = tid) with
  | none => simp
  | some p => cases log_ok <;> simp

/-- C2 counterexample: with `P20250101ABCDEF` present in the store, a
lookup whose log commit fails does NOT return the fetched record — the
exception escapes `trace_page` (there is no try/except around lines
157-158) and the request fails, contradicting the claim that the caller
still receives the trace record. -/
theorem trace_page_log_failure_cex :
    trace_page "P20250101ABCDEF" none "" 5 false sampleDB
      = (sampleDB, .error .storageError) := by rfl

/-- C2 amended: when the record is found but the ScanEvent commit fails,
the failure propagates — the request errors instead of returning the
record, and no state change is persisted. -/
theorem trace_page_log_failure_propagates (tid : String) (ip : Option String)
    (ua : String) (now : Nat) (db : DB) (p : ProductTrace)
    (hfind : db.products.find? (fun q => q.trace_id = tid) = some p) :
    trace_page tid ip ua now false db = (db, .error .storageError) := by
  simp [trace_page, hfind]

/-- C2 amended witness: concrete instance of the propagated failure. -/
theorem trace_page_log_failure_propagates_witness :
    trace_page "P20250101ABCDEF" (some "10.0.0.1") "curl" 9 false sampleDB
      = (sampleDB, .error .storageError) :=
  trace_page_log_failure_propagates "P20250101ABCDEF" (some "10.0.0.1") "curl"
    9 sampleDB sampleProduct (by decide)

/-- C1 counterexample: submitting `warranty_months = "abc"` (present but
not parseable as an integer) does not persist a record with
`warranty_months = 0` — `int("abc")` raises `ValueError` at line 123,
the handler aborts, and the store stays empty, contradicting both parts
of the claim. -/
theorem admin_unparseable_warranty_cex :
    admin_new_product badWarrantyForm "P20250126A1B2C3" 7 8 true ⟨[], []⟩ ⟨[]⟩
      = (⟨[], []⟩, ⟨[]⟩, .error .valueError) := by rfl

/-- C1 amended: the default to 0 applies only when the submitted
`warranty_months` is absent or the empty string (the falsy cases of
`or`); then the record is persisted with `warranty_months = 0`.  A
present, non-empty, unparseable value instead raises `ValueError` and
persists nothing (see the counterexample). -/
theorem admin_blank_warranty_defaults_zero (form : Form) (gen_id : String)
    (now now2 : Nat) (encode_ok : Bool) (db : DB) (fs : FS)
    (habs : form.warranty_months = none ∨ form.warranty_months = some "")
    (hins : insertError db (mkProduct form gen_id 0 now) = none) :
    ∃ p : ProductTrace,
      (admin_new_product form gen_id now now2 encode_ok db fs).1.products
          = db.products ++ [p] ∧
        p.warranty_months = 0 ∧ p.trace_id = gen_id := by
  have hwm : warrantyFromForm form.warranty_months = some 0 := by
    rcases habs with h | h <;> simp [warrantyFromForm, h]
  cases encode_ok with
  | false =>
      exact ⟨mkProduct form gen_id 0 now,
        by simp [admin_new_product, hwm, hins], rfl, rfl⟩
  | true =>
      refine ⟨{ mkProduct form gen_id 0 now with
          qr_image_path := some (generate_qr gen_id fs).2,
          updated_at := now2 }, ?_, rfl, rfl⟩
      simp [admin_new_product, hwm, hins]

/-- C1 amended witness: a blank warranty field persists a record with
warranty 0. -/
theorem admin_blank_warranty_defaults_zero_witness :
    ∃ p : ProductTrace,
      (admin_new_product sampleForm "P20250126A1B2C3" 7 8 true ⟨[], []⟩
            ⟨[]⟩).1.products = (⟨[], []⟩ : DB).products ++ [p] ∧
        p.warranty_months = 0 ∧ p.trace_id = "P20250126A1B2C3" :=
  admin_blank_warranty_defaults_zero sampleForm "P20250126A1B2C3" 7 8 true
    ⟨[], []⟩ ⟨[]⟩ (by decide) (by decide)

/-- C3 counterexample: when the single generated identifier collides
with a stored one, the flow fails with the duplicate-key error on the
first collision — nothing regenerates or retries (lines 105-128 call
`generate_trace_id` once and commit once), contradicting the claimed
bounded-retry loop. -/
theorem admin_duplicate_key_cex :
    admin_new_product sampleForm "P20250101ABCDEF" 7 8 true sampleDB ⟨[]⟩
      = (sampleDB, ⟨[]⟩, .error .duplicateKey) := by rfl

/-- C3 amended: the flow generates one identifier and attempts one
insert; a duplicate-key rejection makes the whole request fail
immediately, with no regeneration, no retry, and no state change. -/
theorem admin_duplicate_key_fails_immediately (form : Form) (gen_id : String)
    (now now2 : Nat) (encode_ok : Bool) (db : DB) (fs : FS) (wm : Int)
    (hwm : warrantyFromForm form.warranty_months = some wm)
    (hdup : db.products.any (fun q => q.trace_id = gen_id) = true) :
    admin_new_product form gen_id now now2 encode_ok db fs
      = (db, fs, .error .duplicateKey) := by
  have hins : insertError db (mkProduct form gen_id wm now)
      = some .duplicateKey := by
    simp [insertError, mkProduct, hdup]
  simp [admin_new_product, hwm, hins]

/-- C3 amended witness: a concrete colliding submission fails at once. -/
theorem admin_duplicate_key_fails_immediately_witness :
    admin_new_product sampleForm "P20250101ABCDEF" 9 10 false sampleDB ⟨[]⟩
      = (sampleDB, ⟨[]⟩, .error .duplicateKey) :=
  admin_duplicate_key_fails_immediately sampleForm "P20250101ABCDEF" 9 10
    false sampleDB ⟨[]⟩ 0 (by decide) (by decide)

/-- C8: if the image encoder raises after the first commit, the
committed record stays in the store — the handler does not roll it
back — still carrying `qr_image_path = none` (the pending-image state),
and the filesystem is untouched; only the request's outcome is the
encoding error. -/
theorem admin_encoding_failure_keeps_record (form : Form) (gen_id : String)
    (now now2 : Nat) (db : DB) (fs : FS) (wm : Int)
    (hwm : warrantyFromForm form.warranty_months = some wm)
    (hins : insertError db (mkProduct form gen_id wm now) = none) :
    admin_new_product form gen_id now now2 false db fs
      = (⟨db.products ++ [mkProduct form gen_id wm now], db.scan_logs⟩, fs,
          .error .encodingError) ∧
      (mkProduct form gen_id wm now).qr_image_path = none := by
  constructor
  · simp [admin_new_product, hwm, hins]
  · rfl

/-- C8 witness: a concrete submission whose encoding step fails keeps
its committed record with an empty image path. -/
theorem admin_encoding_failure_keeps_record_witness :
    admin_new_product sampleForm "P20250126A1B2C3" 7 8 false ⟨[], []⟩ ⟨[]⟩
        = (⟨[mkProduct sampleForm "P20250126A1B2C3" 0 7], []⟩, ⟨[]⟩,
            .error .encodingError) ∧
      (mkProduct sampleForm "P20250126A1B2C3" 0 7).qr_image_path = none :=
  admin_encoding_failure_keeps_record sampleForm "P20250126A1B2C3" 7 8
    ⟨[], []⟩ ⟨[]⟩ 0 (by decide) (by decide)

end App
